import Mathlib

/-!
Notification relay and client notifier.

A shallow embedding of the two functions of the repository:

* the request handler registered by `app.post('/api/line-notify', ...)` in `server.js`;
* the method `gameOver()` in `public/js/game.js`.

Both are `async` functions.  A run of an `async` function is modelled by the list of
observable events it produces, in order, together with the state of the promise it returns
(fulfilled, rejected, or still pending because an awaited operation never settled).
The external collaborators (the document store, the messaging client, `fetch`) are taken
as parameters giving the way each awaited call settles.
-/

namespace Nesupani

/-! ## JavaScript values -/

/-- A safe integer: an integer `n` with `Number.isSafeInteger(n)`, that is, of magnitude at
most `Number.MAX_SAFE_INTEGER = 2^53 - 1`.  Each safe integer is exactly one number value,
distinct safe integers are distinct number values, and `ToString` renders a safe integer by
its plain decimal numeral (exponent form starts at `1e21`). -/
structure SafeInt where
  val : Int
  safe : val.natAbs ≤ 9007199254740991
  deriving DecidableEq, Repr

instance : OfNat SafeInt 0 := ⟨⟨0, by decide⟩⟩

instance : OfNat SafeInt 150 := ⟨⟨150, by decide⟩⟩

/-- The JavaScript values that occur in the two functions.  `num` carries the number
values that are safe integers (game scores).  The other number values (fractional
numbers, numbers of magnitude `2^53` and more, `-0`, `NaN`, the infinities) are not
represented: nothing is stated about them. -/
inductive JsValue where
  | undefined
  | null
  | bool (b : Bool)
  | num (n : SafeInt)
  | str (s : String)
  deriving DecidableEq, Repr

/-- An object literal or stored record: its own properties in order. -/
abbrev JsObject := List (String × JsValue)

/-- A thrown value. -/
structure JsError where
  name : String
  message : String
  deriving DecidableEq, Repr

/-- JavaScript `ToBoolean`, as used by `!x` and `if (x)`. -/
def JsValue.truthy : JsValue → Bool
  | .undefined => false
  | .null => false
  | .bool b => b
  | .num n => n.val != 0
  | .str s => s != ""

/-- JavaScript `ToString`, as applied to a substitution inside a template literal.
A safe integer is rendered by its decimal numeral, with a leading minus sign when
negative. -/
def JsValue.toTemplateString : JsValue → String
  | .undefined => "undefined"
  | .null => "null"
  | .bool true => "true"
  | .bool false => "false"
  | .num n => toString n.val
  | .str s => s

/-- Property read `obj.key`: a `TypeError` when `obj` is `undefined`, the value
`undefined` when the object has no such property. -/
def getProp (obj : Option JsObject) (key : String) : Except JsError JsValue :=
  match obj with
  | none => .error ⟨"TypeError", "Cannot read properties of undefined"⟩
  | some fields => .ok ((fields.lookup key).getD .undefined)

/-! ## Runs of `async` functions -/

/-- State of a promise. -/
inductive Settle (α : Type) where
  | fulfilled (a : α)
  | rejected (e : JsError)
  | pending
  deriving DecidableEq, Repr

/-- A run: the events produced so far and the state of the computation. -/
structure Run (ε : Type) (α : Type) where
  trace : List ε
  result : Settle α
  deriving DecidableEq, Repr

namespace Run

variable {ε α β : Type}

/-- Normal completion with a value. -/
def pure (a : α) : Run ε α := ⟨[], .fulfilled a⟩

/-- Sequencing: the second part runs only when the first completed normally. -/
def bind (m : Run ε α) (f : α → Run ε β) : Run ε β :=
  match m.result with
  | .fulfilled a => ⟨m.trace ++ (f a).trace, (f a).result⟩
  | .rejected e => ⟨m.trace, .rejected e⟩
  | .pending => ⟨m.trace, .pending⟩

/-- Record one event. -/
def emit (e : ε) : Run ε Unit := ⟨[e], .fulfilled ()⟩

/-- Lift a synchronous operation that may throw. -/
def ofExcept : Except JsError α → Run ε α
  | .ok a => ⟨[], .fulfilled a⟩
  | .error e => ⟨[], .rejected e⟩

/-- Expression `await p`, where `call` is the event of starting the operation behind `p`,
`o` is the way `p` settles, and `settled` marks the resumption of the awaiting function.
When `p` never settles the function stays suspended. -/
def await (call settled : ε) (o : Settle α) : Run ε α :=
  match o with
  | .fulfilled a => ⟨[call, settled], .fulfilled a⟩
  | .rejected e => ⟨[call, settled], .rejected e⟩
  | .pending => ⟨[call], .pending⟩

/-- Statement `try { body } catch (error) { handler }`. -/
def tryCatch (body : Run ε α) (handler : JsError → Run ε α) : Run ε α :=
  match body.result with
  | .fulfilled a => ⟨body.trace, .fulfilled a⟩
  | .rejected e => ⟨body.trace ++ (handler e).trace, (handler e).result⟩
  | .pending => ⟨body.trace, .pending⟩

instance : Monad (Run ε) where
  pure := Run.pure
  bind := Run.bind

end Run

/-! ## `server.js`: the handler of `POST /api/line-notify` -/

/-- A message object handed to `lineClient.pushMessage`. -/
structure Message where
  type : String
  text : String
  deriving DecidableEq, Repr

/-- The object passed to `res.json`. -/
inductive ResBody where
  | error (message : String)
  | success (value : Bool)
  deriving DecidableEq, Repr

/-- A response sent with `res.status(..).json(..)`. -/
structure Response where
  status : Nat
  body : ResBody
  deriving DecidableEq, Repr

/-- The document snapshot produced by `db.collection('users').doc(userId).get()`:
its `exists` flag and the value of `data()` (`none` for `undefined`). -/
structure UserDoc where
  exists_ : Bool
  data : Option JsObject
  deriving DecidableEq, Repr

/-- The parsed request body, with `undefined` for a property that is not present. -/
structure Body where
  userId : JsValue
  score : JsValue
  isGameOver : JsValue
  deriving DecidableEq, Repr

/-- The request: `req.body` is `none` when it is `undefined`. -/
structure Request where
  body : Option Body
  deriving DecidableEq, Repr

/-- The collaborators of the handler: how the user-record lookup settles for a given
identifier, and how `lineClient.pushMessage` settles for a given recipient and message. -/
structure Env where
  getUser : JsValue → Settle UserDoc
  pushMessage : JsValue → Message → Settle Unit

/-- Observable events of the handler. -/
inductive ServerEvent where
  | getUser (userId : JsValue)
  | getUserSettled
  | pushMessage (dest : JsValue) (message : Message)
  | pushMessageSettled
  | consoleError (label : String) (error : JsError)
  | respond (res : Response)
  deriving DecidableEq, Repr

/-- Text of the message sent when `isGameOver` is truthy (`server.js`, line 31). -/
def lossText : String :=
  "ゲームオーバー！\n残念ながら、福工大前で降りることができませんでした。\nスコア: 0点\n\nもう一度チャレンジしてみましょう！"

/-- Text of the message sent otherwise (`server.js`, line 36), with the score substituted. -/
def winText (score : JsValue) : String :=
  "おめでとうございます！\n福工大前で無事に降りることができました！\nスコア: " ++ score.toTemplateString ++ "点"

/-- Lines 27-38 of `server.js`: the message object chosen by `isGameOver`. -/
def composeMessage (isGameOver score : JsValue) : Message :=
  if isGameOver.truthy then
    { type := "text", text := lossText }
  else
    { type := "text", text := winText score }

/-- Destructuring `const { userId, score, isGameOver } = req.body`. -/
def destructure (body : Option Body) : Except JsError Body :=
  match body with
  | none => .error ⟨"TypeError", "Cannot destructure property of undefined"⟩
  | some b => .ok b

/-- The `try` block of the handler (`server.js`, lines 11-43). -/
def lineNotifyTry (env : Env) (req : Request) : Run ServerEvent Unit := do
  let b ← Run.ofExcept (destructure req.body)
  let userDoc ← Run.await (.getUser b.userId) .getUserSettled (env.getUser b.userId)
  if !userDoc.exists_ then
    Run.emit (.respond ⟨404, .error "ユーザーが見つかりません"⟩)
  else
    let lineUserId ← Run.ofExcept (getProp userDoc.data "lineUserId")
    if !lineUserId.truthy then
      Run.emit (.respond ⟨400, .error "LINEユーザーIDが設定されていません"⟩)
    else
      let message := composeMessage b.isGameOver b.score
      Run.await (.pushMessage lineUserId message) .pushMessageSettled
        (env.pushMessage lineUserId message)
      Run.emit (.respond ⟨200, .success true⟩)

/-- The `catch` block of the handler (`server.js`, lines 44-47). -/
def lineNotifyCatch (error : JsError) : Run ServerEvent Unit := do
  Run.emit (.consoleError "LINE通知エラー:" error)
  Run.emit (.respond ⟨500, .error "LINE通知の送信に失敗しました"⟩)

/-- The handler of `POST /api/line-notify`. -/
def lineNotify (env : Env) (req : Request) : Run ServerEvent Unit :=
  Run.tryCatch (lineNotifyTry env req) lineNotifyCatch

/-- The `pushMessage` calls of a trace, in order. -/
def pushCalls : List ServerEvent → List (JsValue × Message)
  | [] => []
  | .pushMessage dest m :: es => (dest, m) :: pushCalls es
  | _ :: es => pushCalls es

/-- The responses of a trace, in order. -/
def responses : List ServerEvent → List Response
  | [] => []
  | .respond r :: es => r :: responses es
  | _ :: es => responses es

/-! ## `public/js/game.js`: the method `gameOver` -/

/-- The fields of the game object that `gameOver` reads or writes. -/
structure Game where
  isGameOver : JsValue
  gameState : JsValue
  score : JsValue
  userId : JsValue
  deriving DecidableEq, Repr

/-- The request body: `JSON.stringify` applied to an object literal. -/
inductive FetchBody where
  | jsonStringify (obj : JsObject)
  deriving DecidableEq, Repr

/-- The options object passed to `fetch`. -/
structure FetchInit where
  method : String
  headers : List (String × String)
  body : FetchBody
  deriving DecidableEq, Repr

/-- The part of a `fetch` response that `gameOver` reads. -/
structure FetchResponse where
  ok : Bool
  deriving DecidableEq, Repr

/-- Observable events of `gameOver`. -/
inductive ClientEvent where
  | fetch (url : String) (init : FetchInit)
  | fetchSettled
  | consoleError (text : String) (error : Option JsError)
  | showGameOverScreen
  deriving DecidableEq, Repr

/-- The `try` block of `gameOver` (`game.js`, lines 8-22), for a receiver `self`. -/
def gameOverTry (self : Game) (net : Settle FetchResponse) : Run ClientEvent Unit := do
  let response ← Run.await
    (.fetch "/api/line-notify"
      { method := "POST"
        headers := [("Content-Type", "application/json")]
        body := .jsonStringify
          [("userId", self.userId), ("score", .num 0), ("isGameOver", .bool true)] })
    .fetchSettled net
  if !response.ok then
    Run.emit (.consoleError "LINE通知の送信に失敗しました" none)
  else
    pure ()

/-- The `catch` block of `gameOver` (`game.js`, lines 23-25). -/
def gameOverCatch (error : JsError) : Run ClientEvent Unit :=
  Run.emit (.consoleError "LINE通知の送信中にエラーが発生しました:" (some error))

/-- The method `gameOver()`: the receiver after the three assignments of lines 2-4, and the
run of the rest of the body, where `net` is the way the `fetch` promise settles.
`showGameOverScreen` is recorded as an event. -/
def gameOver (self : Game) (net : Settle FetchResponse) : Game × Run ClientEvent Unit :=
  let self := { self with isGameOver := .bool true }
  let self := { self with gameState := .str "gameOver" }
  let self := { self with score := .num 0 }
  (self, do
    Run.tryCatch (gameOverTry self net) gameOverCatch
    Run.emit .showGameOverScreen)

/-- The `fetch` calls of a trace, in order. -/
def fetchCalls : List ClientEvent → List (String × FetchInit)
  | [] => []
  | .fetch url init :: es => (url, init) :: fetchCalls es
  | _ :: es => fetchCalls es

/-- Whether the game-over screen is shown before the `fetch` promise has settled: the first
of the two events `showGameOverScreen` and `fetchSettled` in the trace is the former. -/
def shownBeforeSettled : List ClientEvent → Bool
  | [] => false
  | .showGameOverScreen :: _ => true
  | .fetchSettled :: _ => false
  | _ :: es => shownBeforeSettled es

/-! ## Decimal numerals -/

/-- Value of a list of decimal digit characters, most significant first. -/
def digitsValue (cs : List Char) : Nat :=
  cs.foldl (fun acc c => 10 * acc + (c.toNat - 48)) 0

/-! ## Auxiliary facts -/

theorem Run.bind_eq {ε α β : Type} (m : Run ε α) (f : α → Run ε β) :
    (m >>= f) = Run.bind m f := rfl

theorem Run.pure_eq {ε α : Type} (a : α) : (Pure.pure a : Run ε α) = Run.pure a := rfl

/-- The handler unfolded into its separate paths. -/
theorem lineNotify_paths (env : Env) (req : Request) :
    lineNotify env req =
      match req.body with
      | none => ⟨[.consoleError "LINE通知エラー:"
            ⟨"TypeError", "Cannot destructure property of undefined"⟩,
          .respond ⟨500, .error "LINE通知の送信に失敗しました"⟩], .fulfilled ()⟩
      | some b =>
        match env.getUser b.userId with
        | .pending => ⟨[.getUser b.userId], .pending⟩
        | .rejected e => ⟨[.getUser b.userId, .getUserSettled,
            .consoleError "LINE通知エラー:" e,
            .respond ⟨500, .error "LINE通知の送信に失敗しました"⟩], .fulfilled ()⟩
        | .fulfilled doc =>
          if doc.exists_ = false then
            ⟨[.getUser b.userId, .getUserSettled,
              .respond ⟨404, .error "ユーザーが見つかりません"⟩], .fulfilled ()⟩
          else
            match getProp doc.data "lineUserId" with
            | .error e => ⟨[.getUser b.userId, .getUserSettled,
                .consoleError "LINE通知エラー:" e,
                .respond ⟨500, .error "LINE通知の送信に失敗しました"⟩], .fulfilled ()⟩
            | .ok dest =>
              if dest.truthy = false then
                ⟨[.getUser b.userId, .getUserSettled,
                  .respond ⟨400, .error "LINEユーザーIDが設定されていません"⟩], .fulfilled ()⟩
              else
                match env.pushMessage dest (composeMessage b.isGameOver b.score) with
                | .pending => ⟨[.getUser b.userId, .getUserSettled,
                    .pushMessage dest (composeMessage b.isGameOver b.score)], .pending⟩
                | .rejected e => ⟨[.getUser b.userId, .getUserSettled,
                    .pushMessage dest (composeMessage b.isGameOver b.score),
                    .pushMessageSettled,
                    .consoleError "LINE通知エラー:" e,
                    .respond ⟨500, .error "LINE通知の送信に失敗しました"⟩], .fulfilled ()⟩
                | .fulfilled _ => ⟨[.getUser b.userId, .getUserSettled,
                    .pushMessage dest (composeMessage b.isGameOver b.score),
                    .pushMessageSettled,
                    .respond ⟨200, .success true⟩], .fulfilled ()⟩ := by
  cases hb : req.body with
  | none =>
    simp [lineNotify, lineNotifyTry, lineNotifyCatch, Run.bind_eq, Run.bind, Run.tryCatch,
      Run.ofExcept, destructure, Run.emit, hb]
  | some b =>
    cases hg : env.getUser b.userId with
    | pending =>
      simp [lineNotify, lineNotifyTry, Run.bind_eq, Run.bind, Run.tryCatch,
        Run.ofExcept, destructure, Run.await, hb, hg]
    | rejected e =>
      simp [lineNotify, lineNotifyTry, lineNotifyCatch, Run.bind_eq, Run.bind, Run.tryCatch,
        Run.ofExcept, destructure, Run.await, Run.emit, hb, hg]
    | fulfilled doc =>
      cases hex : doc.exists_ with
      | false =>
        simp [lineNotify, lineNotifyTry, Run.bind_eq, Run.bind, Run.tryCatch,
          Run.ofExcept, destructure, Run.await, Run.emit, hb, hg, hex]
      | true =>
        cases hp : getProp doc.data "lineUserId" with
        | error e =>
          simp [lineNotify, lineNotifyTry, lineNotifyCatch, Run.bind_eq, Run.bind,
            Run.tryCatch, Run.ofExcept, destructure, Run.await, Run.emit, hb, hg, hex, hp]
        | ok dest =>
          cases ht : dest.truthy with
          | false =>
            simp [lineNotify, lineNotifyTry, Run.bind_eq, Run.bind, Run.tryCatch,
              Run.ofExcept, destructure, Run.await, Run.emit, hb, hg, hex, hp, ht]
          | true =>
            cases hpush : env.pushMessage dest (composeMessage b.isGameOver b.score) with
            | pending =>
              simp [lineNotify, lineNotifyTry, Run.bind_eq, Run.bind, Run.tryCatch,
                Run.ofExcept, destructure, Run.await, Run.emit, hb, hg, hex, hp, ht, hpush]
            | rejected e =>
              simp [lineNotify, lineNotifyTry, lineNotifyCatch, Run.bind_eq, Run.bind,
                Run.tryCatch, Run.ofExcept, destructure, Run.await, Run.emit, hb, hg, hex,
                hp, ht, hpush]
            | fulfilled u =>
              simp [lineNotify, lineNotifyTry, Run.bind_eq, Run.bind, Run.tryCatch,
                Run.ofExcept, destructure, Run.await, Run.emit, hb, hg, hex, hp, ht, hpush]

/-- Every run of the handler follows one of nine paths. -/
theorem lineNotify_cases (env : Env) (req : Request) :
    (req.body = none ∧ lineNotify env req =
        ⟨[.consoleError "LINE通知エラー:"
            ⟨"TypeError", "Cannot destructure property of undefined"⟩,
          .respond ⟨500, .error "LINE通知の送信に失敗しました"⟩], .fulfilled ()⟩) ∨
      (∃ b, req.body = some b ∧ env.getUser b.userId = .pending ∧
        lineNotify env req = ⟨[.getUser b.userId], .pending⟩) ∨
      (∃ b e, req.body = some b ∧ env.getUser b.userId = .rejected e ∧
        lineNotify env req =
          ⟨[.getUser b.userId, .getUserSettled, .consoleError "LINE通知エラー:" e,
            .respond ⟨500, .error "LINE通知の送信に失敗しました"⟩], .fulfilled ()⟩) ∨
      (∃ b doc, req.body = some b ∧ env.getUser b.userId = .fulfilled doc ∧
        doc.exists_ = false ∧
        lineNotify env req =
          ⟨[.getUser b.userId, .getUserSettled,
            .respond ⟨404, .error "ユーザーが見つかりません"⟩], .fulfilled ()⟩) ∨
      (∃ b doc e, req.body = some b ∧ env.getUser b.userId = .fulfilled doc ∧
        doc.exists_ = true ∧ getProp doc.data "lineUserId" = .error e ∧
        lineNotify env req =
          ⟨[.getUser b.userId, .getUserSettled, .consoleError "LINE通知エラー:" e,
            .respond ⟨500, .error "LINE通知の送信に失敗しました"⟩], .fulfilled ()⟩) ∨
      (∃ b doc dest, req.body = some b ∧ env.getUser b.userId = .fulfilled doc ∧
        doc.exists_ = true ∧ getProp doc.data "lineUserId" = .ok dest ∧
        dest.truthy = false ∧
        lineNotify env req =
          ⟨[.getUser b.userId, .getUserSettled,
            .respond ⟨400, .error "LINEユーザーIDが設定されていません"⟩], .fulfilled ()⟩) ∨
      (∃ b doc dest, req.body = some b ∧ env.getUser b.userId = .fulfilled doc ∧
        doc.exists_ = true ∧ getProp doc.data "lineUserId" = .ok dest ∧
        dest.truthy = true ∧
        env.pushMessage dest (composeMessage b.isGameOver b.score) = .pending ∧
        lineNotify env req =
          ⟨[.getUser b.userId, .getUserSettled,
            .pushMessage dest (composeMessage b.isGameOver b.score)], .pending⟩) ∨
      (∃ b doc dest e, req.body = some b ∧ env.getUser b.userId = .fulfilled doc ∧
        doc.exists_ = true ∧ getProp doc.data "lineUserId" = .ok dest ∧
        dest.truthy = true ∧
        env.pushMessage dest (composeMessage b.isGameOver b.score) = .rejected e ∧
        lineNotify env req =
          ⟨[.getUser b.userId, .getUserSettled,
            .pushMessage dest (composeMessage b.isGameOver b.score), .pushMessageSettled,
            .consoleError "LINE通知エラー:" e,
            .respond ⟨500, .error "LINE通知の送信に失敗しました"⟩], .fulfilled ()⟩) ∨
      (∃ b doc dest, req.body = some b ∧ env.getUser b.userId = .fulfilled doc ∧
        doc.exists_ = true ∧ getProp doc.data "lineUserId" = .ok dest ∧
        dest.truthy = true ∧
        env.pushMessage dest (composeMessage b.isGameOver b.score) = .fulfilled () ∧
        lineNotify env req =
          ⟨[.getUser b.userId, .getUserSettled,
            .pushMessage dest (composeMessage b.isGameOver b.score), .pushMessageSettled,
            .respond ⟨200, .success true⟩], .fulfilled ()⟩) := by
  have h := lineNotify_paths env req
  cases hb : req.body with
  | none =>
    left
    simp only [hb] at h
    exact ⟨rfl, h⟩
  | some b =>
    right
    simp only [hb] at h
    cases hg : env.getUser b.userId with
    | pending =>
      left
      simp only [hg] at h
      exact ⟨b, rfl, hg, h⟩
    | rejected e =>
      right; left
      simp only [hg] at h
      exact ⟨b, e, rfl, hg, h⟩
    | fulfilled doc =>
      right; right
      simp only [hg] at h
      cases hex : doc.exists_ with
      | false =>
        left
        simp only [hex, if_true] at h
        exact ⟨b, doc, rfl, hg, hex, h⟩
      | true =>
        right
        simp only [hex, Bool.true_eq_false, if_false] at h
        cases hp : getProp doc.data "lineUserId" with
        | error e =>
          left
          simp only [hp] at h
          exact ⟨b, doc, e, rfl, hg, hex, hp, h⟩
        | ok dest =>
          right
          simp only [hp] at h
          cases ht : dest.truthy with
          | false =>
            left
            simp only [ht, if_true] at h
            exact ⟨b, doc, dest, rfl, hg, hex, hp, ht, h⟩
          | true =>
            right
            simp only [ht, Bool.true_eq_false, if_false] at h
            cases hpush : env.pushMessage dest (composeMessage b.isGameOver b.score) with
            | pending =>
              left
              simp only [hpush] at h
              exact ⟨b, doc, dest, rfl, hg, hex, hp, ht, hpush, h⟩
            | rejected e =>
              right; left
              simp only [hpush] at h
              exact ⟨b, doc, dest, e, rfl, hg, hex, hp, ht, hpush, h⟩
            | fulfilled u =>
              right; right
              simp only [hpush] at h
              exact ⟨b, doc, dest, rfl, hg, hex, hp, ht, hpush, h⟩

/-- The method `gameOver` unfolded into its separate paths. -/
theorem gameOver_paths (self : Game) (net : Settle FetchResponse) :
    (gameOver self net).2 =
      match net with
      | .pending => ⟨[.fetch "/api/line-notify"
            { method := "POST"
              headers := [("Content-Type", "application/json")]
              body := .jsonStringify
                [("userId", self.userId), ("score", .num 0), ("isGameOver", .bool true)] }],
          .pending⟩
      | .rejected e => ⟨[.fetch "/api/line-notify"
            { method := "POST"
              headers := [("Content-Type", "application/json")]
              body := .jsonStringify
                [("userId", self.userId), ("score", .num 0), ("isGameOver", .bool true)] },
          .fetchSettled,
          .consoleError "LINE通知の送信中にエラーが発生しました:" (some e),
          .showGameOverScreen], .fulfilled ()⟩
      | .fulfilled response =>
        if response.ok = false then
          ⟨[.fetch "/api/line-notify"
              { method := "POST"
                headers := [("Content-Type", "application/json")]
                body := .jsonStringify
                  [("userId", self.userId), ("score", .num 0), ("isGameOver", .bool true)] },
            .fetchSettled,
            .consoleError "LINE通知の送信に失敗しました" none,
            .showGameOverScreen], .fulfilled ()⟩
        else
          ⟨[.fetch "/api/line-notify"
              { method := "POST"
                headers := [("Content-Type", "application/json")]
                body := .jsonStringify
                  [("userId", self.userId), ("score", .num 0), ("isGameOver", .bool true)] },
            .fetchSettled,
            .showGameOverScreen], .fulfilled ()⟩ := by
  cases net with
  | pending =>
    simp [gameOver, gameOverTry, Run.bind_eq, Run.bind, Run.tryCatch, Run.await]
  | rejected e =>
    simp [gameOver, gameOverTry, gameOverCatch, Run.bind_eq, Run.bind, Run.tryCatch,
      Run.await, Run.emit]
  | fulfilled response =>
    cases hok : response.ok with
    | false =>
      simp [gameOver, gameOverTry, Run.bind_eq, Run.bind, Run.tryCatch, Run.await,
        Run.emit, hok]
    | true =>
      simp [gameOver, gameOverTry, Run.bind_eq, Run.pure_eq, Run.pure, Run.bind,
        Run.tryCatch, Run.await, Run.emit, hok]

/-! ## Decimal rendering is injective -/

theorem digitChar_value (k : Nat) (hk : k < 10) : (Nat.digitChar k).toNat - 48 = k := by
  interval_cases k <;> rfl

theorem digitChar_ne_minus (k : Nat) (hk : k < 10) : Nat.digitChar k ≠ '-' := by
  interval_cases k <;> decide

theorem toDigitsCore_append (fuel : Nat) : ∀ (n : Nat) (ds : List Char),
    Nat.toDigitsCore 10 fuel n ds = Nat.toDigitsCore 10 fuel n [] ++ ds := by
  induction fuel with
  | zero => intro n ds; simp [Nat.toDigitsCore]
  | succ f ih =>
    intro n ds
    simp only [Nat.toDigitsCore]
    split
    · simp
    · rw [ih (n / 10) (Nat.digitChar (n % 10) :: ds), ih (n / 10) [Nat.digitChar (n % 10)]]
      simp

theorem digitsValue_append_single (cs : List Char) (c : Char) :
    digitsValue (cs ++ [c]) = 10 * digitsValue cs + (c.toNat - 48) := by
  simp [digitsValue, List.foldl_append]

theorem digitsValue_toDigitsCore (fuel : Nat) : ∀ n : Nat, n < fuel →
    digitsValue (Nat.toDigitsCore 10 fuel n []) = n := by
  induction fuel with
  | zero => intro n h; omega
  | succ f ih =>
    intro n h
    simp only [Nat.toDigitsCore]
    split
    · rename_i h0
      have hn : n % 10 = n := by omega
      have hd := digitChar_value (n % 10) (Nat.mod_lt _ (by decide))
      simp only [digitsValue, List.foldl, hd]
      omega
    · rename_i h0
      rw [toDigitsCore_append, digitsValue_append_single, ih (n / 10) (by omega),
        digitChar_value (n % 10) (Nat.mod_lt _ (by decide))]
      omega

theorem toDigitsCore_no_minus (fuel : Nat) : ∀ (n : Nat) (ds : List Char) (c : Char),
    c ∈ Nat.toDigitsCore 10 fuel n ds → c ∈ ds ∨ c ≠ '-' := by
  induction fuel with
  | zero => intro n ds c hc; left; simpa [Nat.toDigitsCore] using hc
  | succ f ih =>
    intro n ds c hc
    have hd := digitChar_ne_minus (n % 10) (Nat.mod_lt _ (by decide))
    simp only [Nat.toDigitsCore] at hc
    split at hc
    · rcases List.mem_cons.mp hc with h | h
      · right; rw [h]; exact hd
      · left; exact h
    · rcases ih _ _ _ hc with h | h
      · rcases List.mem_cons.mp h with h | h
        · right; rw [h]; exact hd
        · left; exact h
      · right; exact h

theorem natRepr_ne_minus (a b : Nat) : Nat.repr a ≠ "-" ++ Nat.repr b := by
  intro h
  have h1 := congrArg String.data h
  simp only [Nat.repr, List.asString, String.data_append] at h1
  have h2 : '-' ∈ Nat.toDigits 10 a := by rw [h1]; simp
  rcases toDigitsCore_no_minus _ _ _ _ h2 with h3 | h3
  · simp at h3
  · exact h3 rfl

theorem natRepr_injective (m n : Nat) (h : Nat.repr m = Nat.repr n) : m = n := by
  have h1 : Nat.toDigits 10 m = Nat.toDigits 10 n := by
    have := congrArg String.data h
    simpa [Nat.repr, List.asString] using this
  have hm := digitsValue_toDigitsCore (m + 1) m (Nat.lt_succ_self m)
  have hn := digitsValue_toDigitsCore (n + 1) n (Nat.lt_succ_self n)
  unfold Nat.toDigits at h1
  rw [h1] at hm
  omega

theorem string_append_left_cancel (a x y : String) (h : a ++ x = a ++ y) : x = y := by
  have := congrArg String.data h
  simp only [String.data_append, List.append_cancel_left_eq] at this
  exact String.ext this

theorem string_append_right_cancel (x y c : String) (h : x ++ c = y ++ c) : x = y := by
  have := congrArg String.data h
  simp only [String.data_append, List.append_cancel_right_eq] at this
  exact String.ext this

theorem intToString_injective (m n : Int) (h : toString m = toString n) : m = n := by
  cases m with
  | ofNat a =>
    cases n with
    | ofNat b =>
      have : Nat.repr a = Nat.repr b := h
      rw [natRepr_injective a b this]
    | negSucc b =>
      have h2 : Nat.repr a = "-" ++ Nat.repr (b + 1) := h
      exact absurd h2 (natRepr_ne_minus a (b + 1))
  | negSucc a =>
    cases n with
    | ofNat b =>
      have h2 : "-" ++ Nat.repr (a + 1) = Nat.repr b := h
      exact absurd h2.symm (natRepr_ne_minus b (a + 1))
    | negSucc b =>
      have h2 : "-" ++ Nat.repr (a + 1) = "-" ++ Nat.repr (b + 1) := h
      have h3 := natRepr_injective _ _ (string_append_left_cancel _ _ _ h2)
      have : a = b := by omega
      rw [this]

/-! ## The relay: error paths -/

/-- Claim C1: when the looked-up document has `exists = false`, whatever the score and the
game-over flag of the request, the handler sends exactly one response, with status 404,
and makes no `pushMessage` call. -/
theorem lineNotify_unknown_user (env : Env) (b : Body) (doc : UserDoc)
    (hget : env.getUser b.userId = .fulfilled doc) (hex : doc.exists_ = false) :
    (responses (lineNotify env ⟨some b⟩).trace).map Response.status = [404] ∧
      pushCalls (lineNotify env ⟨some b⟩).trace = [] ∧
      (lineNotify env ⟨some b⟩).result = .fulfilled () := by
  rw [lineNotify_paths]
  simp [hget, hex, responses, pushCalls]

/-- Witness of C1: the request of the user "ghost", for whom no record is stored. -/
theorem lineNotify_unknown_user_witness :
    (responses (lineNotify ⟨fun _ => .fulfilled ⟨false, none⟩, fun _ _ => .fulfilled ()⟩
        ⟨some ⟨.str "ghost", .num 0, .bool true⟩⟩).trace).map Response.status = [404] ∧
      pushCalls (lineNotify ⟨fun _ => .fulfilled ⟨false, none⟩, fun _ _ => .fulfilled ()⟩
        ⟨some ⟨.str "ghost", .num 0, .bool true⟩⟩).trace = [] ∧
      (lineNotify ⟨fun _ => .fulfilled ⟨false, none⟩, fun _ _ => .fulfilled ()⟩
        ⟨some ⟨.str "ghost", .num 0, .bool true⟩⟩).result = .fulfilled () :=
  lineNotify_unknown_user ⟨fun _ => .fulfilled ⟨false, none⟩, fun _ _ => .fulfilled ()⟩
    ⟨.str "ghost", .num 0, .bool true⟩ ⟨false, none⟩ rfl rfl

/-- Claim C2: when the record exists but its `lineUserId` is absent, `null` or the empty
string, whatever the score and the game-over flag of the request, the handler sends exactly
one response, with status 400, and makes no `pushMessage` call. -/
theorem lineNotify_missing_line_id (env : Env) (b : Body) (doc : UserDoc) (fields : JsObject)
    (hget : env.getUser b.userId = .fulfilled doc) (hex : doc.exists_ = true)
    (hdata : doc.data = some fields)
    (hid : fields.lookup "lineUserId" = none ∨ fields.lookup "lineUserId" = some .null ∨
      fields.lookup "lineUserId" = some (.str "")) :
    (responses (lineNotify env ⟨some b⟩).trace).map Response.status = [400] ∧
      pushCalls (lineNotify env ⟨some b⟩).trace = [] ∧
      (lineNotify env ⟨some b⟩).result = .fulfilled () := by
  rw [lineNotify_paths]
  rcases hid with h | h | h <;>
    simp [hget, hex, hdata, getProp, h, JsValue.truthy, responses, pushCalls]

/-- Witness of C2: a stored record whose `lineUserId` is the empty string. -/
theorem lineNotify_missing_line_id_witness :
    (responses (lineNotify
        ⟨fun _ => .fulfilled ⟨true, some [("lineUserId", .str "")]⟩, fun _ _ => .fulfilled ()⟩
        ⟨some ⟨.str "u1", .num 150, .bool false⟩⟩).trace).map Response.status = [400] ∧
      pushCalls (lineNotify
        ⟨fun _ => .fulfilled ⟨true, some [("lineUserId", .str "")]⟩, fun _ _ => .fulfilled ()⟩
        ⟨some ⟨.str "u1", .num 150, .bool false⟩⟩).trace = [] ∧
      (lineNotify
        ⟨fun _ => .fulfilled ⟨true, some [("lineUserId", .str "")]⟩, fun _ _ => .fulfilled ()⟩
        ⟨some ⟨.str "u1", .num 150, .bool false⟩⟩).result = .fulfilled () :=
  lineNotify_missing_line_id
    ⟨fun _ => .fulfilled ⟨true, some [("lineUserId", .str "")]⟩, fun _ _ => .fulfilled ()⟩
    ⟨.str "u1", .num 150, .bool false⟩ ⟨true, some [("lineUserId", .str "")]⟩
    [("lineUserId", .str "")] rfl rfl rfl (Or.inr (Or.inr (by decide)))

/-! ## The relay: the composed message -/

/-- The `pushMessage` calls of a valid request: one call, to the stored identifier, with the
composed message, however the call settles. -/
theorem pushCalls_valid (env : Env) (b : Body) (doc : UserDoc) (fields : JsObject)
    (L : String) (hget : env.getUser b.userId = .fulfilled doc) (hex : doc.exists_ = true)
    (hdata : doc.data = some fields) (hid : fields.lookup "lineUserId" = some (.str L))
    (hL : L ≠ "") :
    pushCalls (lineNotify env ⟨some b⟩).trace =
      [(.str L, composeMessage b.isGameOver b.score)] := by
  rw [lineNotify_paths]
  simp only [hget, hex, hdata, getProp, hid, Option.getD_some, JsValue.truthy]
  have ht : (L != "") = true := by simpa using hL
  simp only [ht]
  cases env.pushMessage (.str L) (composeMessage b.isGameOver b.score) <;>
    simp [pushCalls]

/-- Claim C3: for a valid request (the record exists and has a non-empty `lineUserId`) whose
`isGameOver` is `true`, and for every value of `score`, the forwarded message has type
`text` and its text is the fixed loss template, one of whose lines is "スコア: 0点";
replacing the score of the request by any other value leaves the forwarded message
unchanged. -/
theorem lineNotify_loss_message (env : Env) (b : Body) (doc : UserDoc) (fields : JsObject)
    (L : String) (hget : env.getUser b.userId = .fulfilled doc) (hex : doc.exists_ = true)
    (hdata : doc.data = some fields) (hid : fields.lookup "lineUserId" = some (.str L))
    (hL : L ≠ "") (hover : b.isGameOver = .bool true) :
    pushCalls (lineNotify env ⟨some b⟩).trace =
        [(.str L, { type := "text", text := lossText })] ∧
      lossText = String.intercalate "\n"
        ["ゲームオーバー！", "残念ながら、福工大前で降りることができませんでした。",
          "スコア: 0点", "", "もう一度チャレンジしてみましょう！"] ∧
      ∀ s : JsValue, pushCalls (lineNotify env ⟨some { b with score := s }⟩).trace =
        pushCalls (lineNotify env ⟨some b⟩).trace := by
  refine ⟨?_, by decide, ?_⟩
  · rw [pushCalls_valid env b doc fields L hget hex hdata hid hL]
    simp [composeMessage, hover, JsValue.truthy]
  · intro s
    rw [pushCalls_valid env b doc fields L hget hex hdata hid hL,
      pushCalls_valid env { b with score := s } doc fields L hget hex hdata hid hL]
    simp [composeMessage, hover, JsValue.truthy]

/-- Witness of C3: a lost round reported with score 150 for the user `u1` stored with
`lineUserId` `L1`. -/
theorem lineNotify_loss_message_witness :
    pushCalls (lineNotify
        ⟨fun _ => .fulfilled ⟨true, some [("lineUserId", .str "L1")]⟩,
          fun _ _ => .fulfilled ()⟩
        ⟨some ⟨.str "u1", .num 150, .bool true⟩⟩).trace =
      [(.str "L1", { type := "text", text := lossText })] :=
  (lineNotify_loss_message
    ⟨fun _ => .fulfilled ⟨true, some [("lineUserId", .str "L1")]⟩, fun _ _ => .fulfilled ()⟩
    ⟨.str "u1", .num 150, .bool true⟩ ⟨true, some [("lineUserId", .str "L1")]⟩
    [("lineUserId", .str "L1")] "L1" rfl rfl rfl (by decide) (by decide) rfl).1

/-- The success message for a safe-integer score: for a valid request whose `isGameOver` is
`false` and whose score is the safe integer `S`, the forwarded message has type `text` and
its text is the success template with the decimal numeral of `S` between "スコア: " and
"点"; a request that differs by its (safe-integer) score yields a different text.
Scores that are not safe integers are outside this statement. -/
theorem lineNotify_win_message_safe_integer (env : Env) (b : Body) (doc : UserDoc)
    (fields : JsObject) (L : String) (S : SafeInt)
    (hget : env.getUser b.userId = .fulfilled doc)
    (hex : doc.exists_ = true) (hdata : doc.data = some fields)
    (hid : fields.lookup "lineUserId" = some (.str L)) (hL : L ≠ "")
    (hover : b.isGameOver = .bool false) (hscore : b.score = .num S) :
    pushCalls (lineNotify env ⟨some b⟩).trace =
        [(.str L, { type := "text", text :=
          "おめでとうございます！\n福工大前で無事に降りることができました！\nスコア: "
            ++ toString S.val ++ "点" })] ∧
      ∀ S2 : SafeInt, S2 ≠ S →
        (pushCalls (lineNotify env ⟨some { b with score := .num S2 }⟩).trace).map
            (fun c => c.2.text) ≠
          (pushCalls (lineNotify env ⟨some b⟩).trace).map (fun c => c.2.text) := by
  have h1 := pushCalls_valid env b doc fields L hget hex hdata hid hL
  refine ⟨?_, ?_⟩
  · rw [h1]
    simp [composeMessage, hover, hscore, JsValue.truthy, winText, JsValue.toTemplateString]
  · intro S2 hne heq
    rw [h1, pushCalls_valid env { b with score := .num S2 } doc fields L hget hex hdata hid hL]
      at heq
    simp only [composeMessage, hover, hscore, JsValue.truthy, winText,
      JsValue.toTemplateString, Bool.false_eq_true, if_false, List.map_cons, List.map_nil,
      List.cons.injEq, and_true] at heq
    have h2 := string_append_right_cancel _ _ _ heq
    have h3 := string_append_left_cancel _ _ _ h2
    have h4 := intToString_injective _ _ h3
    apply hne
    cases S2
    cases S
    simp only at h4
    subst h4
    rfl

/-- The success message of a won round with score 150. -/
theorem lineNotify_win_message_safe_integer_example :
    pushCalls (lineNotify
        ⟨fun _ => .fulfilled ⟨true, some [("lineUserId", .str "L1")]⟩,
          fun _ _ => .fulfilled ()⟩
        ⟨some ⟨.str "u1", .num 150, .bool false⟩⟩).trace =
      [(.str "L1", { type := "text", text :=
        "おめでとうございます！\n福工大前で無事に降りることができました！\nスコア: 150点" })] :=
  (lineNotify_win_message_safe_integer
    ⟨fun _ => .fulfilled ⟨true, some [("lineUserId", .str "L1")]⟩, fun _ _ => .fulfilled ()⟩
    ⟨.str "u1", .num 150, .bool false⟩ ⟨true, some [("lineUserId", .str "L1")]⟩
    [("lineUserId", .str "L1")] "L1" 150 rfl rfl rfl (by decide) (by decide) rfl rfl).1

/-! ## The relay: the success path and failures of the collaborators -/

/-- Claim C5: for a request whose record exists with a non-empty `lineUserId` `L`, when the
lookup and the push complete without raising, the handler makes exactly one `pushMessage`
call, addressed to `L` with the composed message, and after its completion responds 200
with body `{success: true}`; conversely, whenever the handler sends a response of body
`{success: true}`, its status is 200 and the trace is the lookup, then one `pushMessage`
call to the resolved identifier that completed without raising, then that response. -/
theorem lineNotify_success (env : Env) (req : Request) :
    (∀ (b : Body) (doc : UserDoc) (fields : JsObject) (L : String),
        req.body = some b → env.getUser b.userId = .fulfilled doc → doc.exists_ = true →
        doc.data = some fields → fields.lookup "lineUserId" = some (.str L) → L ≠ "" →
        env.pushMessage (.str L) (composeMessage b.isGameOver b.score) = .fulfilled () →
        lineNotify env req =
          ⟨[.getUser b.userId, .getUserSettled,
            .pushMessage (.str L) (composeMessage b.isGameOver b.score),
            .pushMessageSettled, .respond ⟨200, .success true⟩], .fulfilled ()⟩) ∧
      (∀ status : Nat, .respond ⟨status, .success true⟩ ∈ (lineNotify env req).trace →
        status = 200 ∧
        ∃ (b : Body) (doc : UserDoc) (dest : JsValue),
          req.body = some b ∧ env.getUser b.userId = .fulfilled doc ∧
          getProp doc.data "lineUserId" = .ok dest ∧
          env.pushMessage dest (composeMessage b.isGameOver b.score) = .fulfilled () ∧
          (lineNotify env req).trace =
            [.getUser b.userId, .getUserSettled,
              .pushMessage dest (composeMessage b.isGameOver b.score),
              .pushMessageSettled, .respond ⟨200, .success true⟩]) := by
  constructor
  · intro b doc fields L hb hget hex hdata hid hL hpush
    have ht : (L != "") = true := by simpa using hL
    rw [lineNotify_paths]
    simp [hb, hget, hex, hdata, getProp, hid, JsValue.truthy, ht, hpush]
  · intro status hmem
    rcases lineNotify_cases env req with ⟨_, h⟩ | ⟨b, _, _, h⟩ | ⟨b, e, _, _, h⟩ |
      ⟨b, doc, _, _, _, h⟩ | ⟨b, doc, e, _, _, _, _, h⟩ | ⟨b, doc, dest, _, _, _, _, _, h⟩ |
      ⟨b, doc, dest, _, _, _, _, _, _, h⟩ | ⟨b, doc, dest, e, _, _, _, _, _, _, h⟩ |
      ⟨b, doc, dest, hb, hg, _, hp, _, hpush, h⟩
    all_goals rw [h] at hmem
    all_goals simp at hmem
    rw [h]
    exact ⟨hmem, b, doc, dest, hb, hg, hp, hpush, rfl⟩

/-- Witness of C5: the request `{userId: "u1", score: 0, isGameOver: true}` with the stored
record `{lineUserId: "L1"}` gives one push to `L1` with the loss text, then the response
200 `{success: true}`. -/
theorem lineNotify_success_witness :
    lineNotify
        ⟨fun _ => .fulfilled ⟨true, some [("lineUserId", .str "L1")]⟩,
          fun _ _ => .fulfilled ()⟩
        ⟨some ⟨.str "u1", .num 0, .bool true⟩⟩ =
      ⟨[.getUser (.str "u1"), .getUserSettled,
        .pushMessage (.str "L1") { type := "text", text := lossText },
        .pushMessageSettled, .respond ⟨200, .success true⟩], .fulfilled ()⟩ :=
  (lineNotify_success
    ⟨fun _ => .fulfilled ⟨true, some [("lineUserId", .str "L1")]⟩, fun _ _ => .fulfilled ()⟩
    ⟨some ⟨.str "u1", .num 0, .bool true⟩⟩).1
    ⟨.str "u1", .num 0, .bool true⟩ ⟨true, some [("lineUserId", .str "L1")]⟩
    [("lineUserId", .str "L1")] "L1" rfl rfl rfl rfl rfl (by decide) rfl

/-- Claim C6: if the user-record lookup raises, the handler sends exactly one response, with
status 500, and makes no `pushMessage` call; if a `pushMessage` call of the run raises, the
handler sends exactly one response, with status 500; and in every run the handler makes at
most one `pushMessage` call. -/
theorem lineNotify_failure (env : Env) (req : Request) :
    (∀ (b : Body) (e : JsError), req.body = some b → env.getUser b.userId = .rejected e →
        (responses (lineNotify env req).trace).map Response.status = [500] ∧
        pushCalls (lineNotify env req).trace = []) ∧
      (∀ (dest : JsValue) (m : Message) (e : JsError),
        .pushMessage dest m ∈ (lineNotify env req).trace →
        env.pushMessage dest m = .rejected e →
        (responses (lineNotify env req).trace).map Response.status = [500]) ∧
      (pushCalls (lineNotify env req).trace).length ≤ 1 := by
  refine ⟨?_, ?_, ?_⟩
  · intro b e hb hg
    rw [lineNotify_paths]
    simp [hb, hg, responses, pushCalls]
  · intro dest m e hmem hrej
    rcases lineNotify_cases env req with ⟨_, h⟩ | ⟨b, _, _, h⟩ | ⟨b, e, _, _, h⟩ |
      ⟨b, doc, _, _, _, h⟩ | ⟨b, doc, e, _, _, _, _, h⟩ | ⟨b, doc, d, _, _, _, _, _, h⟩ |
      ⟨b, doc, d, _, _, _, _, _, hpush, h⟩ | ⟨b, doc, d, e, _, _, _, _, _, _, h⟩ |
      ⟨b, doc, d, _, _, _, _, _, hpush, h⟩
    all_goals rw [h] at hmem ⊢
    all_goals simp at hmem
    all_goals first
      | (simp [responses]; done)
      | (rw [hmem.1, hmem.2, hpush] at hrej; simp at hrej)
  · rcases lineNotify_cases env req with ⟨_, h⟩ | ⟨b, _, _, h⟩ | ⟨b, e, _, _, h⟩ |
      ⟨b, doc, _, _, _, h⟩ | ⟨b, doc, e, _, _, _, _, h⟩ | ⟨b, doc, d, _, _, _, _, _, h⟩ |
      ⟨b, doc, d, _, _, _, _, _, _, h⟩ | ⟨b, doc, d, e, _, _, _, _, _, _, h⟩ |
      ⟨b, doc, d, _, _, _, _, _, _, h⟩
    all_goals rw [h]
    all_goals simp [pushCalls]

/-- Witness of C6: a store whose lookup raises, for the request of `u1`. -/
theorem lineNotify_failure_witness :
    (responses (lineNotify
        ⟨fun _ => .rejected ⟨"Error", "unavailable"⟩, fun _ _ => .fulfilled ()⟩
        ⟨some ⟨.str "u1", .num 0, .bool true⟩⟩).trace).map Response.status = [500] ∧
      pushCalls (lineNotify
        ⟨fun _ => .rejected ⟨"Error", "unavailable"⟩, fun _ _ => .fulfilled ()⟩
        ⟨some ⟨.str "u1", .num 0, .bool true⟩⟩).trace = [] :=
  (lineNotify_failure
    ⟨fun _ => .rejected ⟨"Error", "unavailable"⟩, fun _ _ => .fulfilled ()⟩
    ⟨some ⟨.str "u1", .num 0, .bool true⟩⟩).1
    ⟨.str "u1", .num 0, .bool true⟩ ⟨"Error", "unavailable"⟩ rfl rfl

/-! ## The relay: bodies of the error responses -/

/-- Claim C7 fails as stated: the 404, 400 and 500 responses of three concrete runs (no
stored record; a record without `lineUserId`; a lookup that raises) carry the Japanese
texts of `server.js`, none of which is the English text of the interface contract. -/
theorem lineNotify_error_bodies_counterexample :
    (responses (lineNotify ⟨fun _ => .fulfilled ⟨false, none⟩, fun _ _ => .fulfilled ()⟩
        ⟨some ⟨.str "ghost", .num 0, .bool true⟩⟩).trace =
        [⟨404, .error "ユーザーが見つかりません"⟩] ∧
      ResBody.error "ユーザーが見つかりません" ≠ ResBody.error "user not found") ∧
    (responses (lineNotify ⟨fun _ => .fulfilled ⟨true, some []⟩, fun _ _ => .fulfilled ()⟩
        ⟨some ⟨.str "u1", .num 0, .bool true⟩⟩).trace =
        [⟨400, .error "LINEユーザーIDが設定されていません"⟩] ∧
      ResBody.error "LINEユーザーIDが設定されていません" ≠
        ResBody.error "messaging identifier missing") ∧
    (responses (lineNotify
        ⟨fun _ => .rejected ⟨"Error", "unavailable"⟩, fun _ _ => .fulfilled ()⟩
        ⟨some ⟨.str "u1", .num 0, .bool true⟩⟩).trace =
        [⟨500, .error "LINE通知の送信に失敗しました"⟩] ∧
      ResBody.error "LINE通知の送信に失敗しました" ≠ ResBody.error "notification failed") := by
  refine ⟨⟨by decide, by decide⟩, ⟨by decide, by decide⟩, ⟨by decide, by decide⟩⟩

/-- Claim C7, amended: every response the handler sends with status 404 has body
`{ error: "ユーザーが見つかりません" }`, every one with status 400 has body
`{ error: "LINEユーザーIDが設定されていません" }`, and every one with status 500 has body
`{ error: "LINE通知の送信に失敗しました" }`. -/
theorem lineNotify_error_bodies (env : Env) (req : Request) (r : Response)
    (hr : .respond r ∈ (lineNotify env req).trace) :
    (r.status = 404 → r.body = .error "ユーザーが見つかりません") ∧
      (r.status = 400 → r.body = .error "LINEユーザーIDが設定されていません") ∧
      (r.status = 500 → r.body = .error "LINE通知の送信に失敗しました") := by
  rcases lineNotify_cases env req with ⟨_, h⟩ | ⟨b, _, _, h⟩ | ⟨b, e, _, _, h⟩ |
    ⟨b, doc, _, _, _, h⟩ | ⟨b, doc, e, _, _, _, _, h⟩ | ⟨b, doc, d, _, _, _, _, _, h⟩ |
    ⟨b, doc, d, _, _, _, _, _, _, h⟩ | ⟨b, doc, d, e, _, _, _, _, _, _, h⟩ |
    ⟨b, doc, d, _, _, _, _, _, _, h⟩
  all_goals rw [h] at hr
  all_goals simp at hr
  all_goals subst hr
  all_goals simp

/-- Witness of the amended C7: the 404 response of the request of the user "ghost". -/
theorem lineNotify_error_bodies_witness :
    ((404 : Nat) = 404 → ResBody.error "ユーザーが見つかりません" =
        .error "ユーザーが見つかりません") ∧
      ((404 : Nat) = 400 → ResBody.error "ユーザーが見つかりません" =
        .error "LINEユーザーIDが設定されていません") ∧
      ((404 : Nat) = 500 → ResBody.error "ユーザーが見つかりません" =
        .error "LINE通知の送信に失敗しました") :=
  lineNotify_error_bodies ⟨fun _ => .fulfilled ⟨false, none⟩, fun _ _ => .fulfilled ()⟩
    ⟨some ⟨.str "ghost", .num 0, .bool true⟩⟩ ⟨404, .error "ユーザーが見つかりません"⟩
    (by decide)

/-! ## The client notifier -/

/-- Claim C8: for every receiver and every way the request settles (or fails to), after a
call of `gameOver()` the fields are `isGameOver = true`, `gameState = 'gameOver'` and
`score = 0`, with `userId` unchanged, and the run issues exactly one `fetch`: a POST to
`/api/line-notify` whose body is `JSON.stringify` of
`{ userId: <the receiver's userId>, score: 0, isGameOver: true }`, whatever the score held
before the call. -/
theorem gameOver_state_and_request (self : Game) (net : Settle FetchResponse) :
    (gameOver self net).1 =
        { isGameOver := .bool true, gameState := .str "gameOver", score := .num 0,
          userId := self.userId } ∧
      fetchCalls (gameOver self net).2.trace =
        [("/api/line-notify",
          { method := "POST"
            headers := [("Content-Type", "application/json")]
            body := .jsonStringify
              [("userId", self.userId), ("score", .num 0), ("isGameOver", .bool true)] })] := by
  refine ⟨rfl, ?_⟩
  rw [gameOver_paths]
  cases net with
  | pending => simp [fetchCalls]
  | rejected e => simp [fetchCalls]
  | fulfilled response => cases hok : response.ok <;> simp [fetchCalls, hok]

/-- Claim C9: for every outcome of the request that settles (a response with `ok` true, a
response with `ok` false, or a rejection), `gameOver()` calls `showGameOverScreen` exactly
once and completes normally: the promise it returns is fulfilled, not rejected. -/
theorem gameOver_shows_screen (self : Game) (net : Settle FetchResponse)
    (hnet : net ≠ .pending) :
    (gameOver self net).2.trace.count .showGameOverScreen = 1 ∧
      (gameOver self net).2.result = .fulfilled () := by
  rw [gameOver_paths]
  cases net with
  | pending => exact absurd rfl hnet
  | rejected e => simp [List.count_cons]
  | fulfilled response => cases hok : response.ok <;> simp [List.count_cons, hok]

/-- Witness of C9: the request rejects with a network error. -/
theorem gameOver_shows_screen_witness :
    (gameOver ⟨.bool false, .str "playing", .num 150, .str "u1"⟩
        (.rejected ⟨"TypeError", "Failed to fetch"⟩)).2.trace.count .showGameOverScreen = 1 ∧
      (gameOver ⟨.bool false, .str "playing", .num 150, .str "u1"⟩
        (.rejected ⟨"TypeError", "Failed to fetch"⟩)).2.result = .fulfilled () :=
  gameOver_shows_screen ⟨.bool false, .str "playing", .num 150, .str "u1"⟩
    (.rejected ⟨"TypeError", "Failed to fetch"⟩) (by decide)

/-- Claim C10 fails as stated: in the run where the request is answered with an `ok`
response, the screen is shown only after the response has arrived, and in the run where the
request never settles the screen is not shown at all. -/
theorem gameOver_screen_waits_counterexample :
    (gameOver ⟨.bool false, .str "playing", .num 150, .str "u1"⟩
        (.fulfilled ⟨true⟩)).2.trace =
      [.fetch "/api/line-notify"
          { method := "POST"
            headers := [("Content-Type", "application/json")]
            body := .jsonStringify
              [("userId", .str "u1"), ("score", .num 0), ("isGameOver", .bool true)] },
        .fetchSettled, .showGameOverScreen] ∧
      shownBeforeSettled (gameOver ⟨.bool false, .str "playing", .num 150, .str "u1"⟩
        (.fulfilled ⟨true⟩)).2.trace = false ∧
      ClientEvent.showGameOverScreen ∉
        (gameOver ⟨.bool false, .str "playing", .num 150, .str "u1"⟩ .pending).2.trace := by
  refine ⟨by decide, by decide, by decide⟩

/-- Claim C10, amended: in every run of `gameOver()` the call of `showGameOverScreen` is
ordered after the settlement of the outbound request: the screen is never shown before the
request has settled, it is not shown while the request is pending, and once the request has
settled (in whichever way) the last event of the run is the call of
`showGameOverScreen`. -/
theorem gameOver_screen_after_settle (self : Game) (net : Settle FetchResponse) :
    shownBeforeSettled (gameOver self net).2.trace = false ∧
      (net = .pending → ClientEvent.showGameOverScreen ∉ (gameOver self net).2.trace) ∧
      (net ≠ .pending → ∃ pre, ClientEvent.fetchSettled ∈ pre ∧
        (gameOver self net).2.trace = pre ++ [.showGameOverScreen]) := by
  cases net with
  | pending =>
    rw [gameOver_paths]
    simp [shownBeforeSettled]
  | rejected e =>
    have h := gameOver_paths self (.rejected e)
    simp only at h
    rw [h]
    exact ⟨by simp [shownBeforeSettled], by simp,
      fun _ => ⟨[_, .fetchSettled, _], by simp, rfl⟩⟩
  | fulfilled response =>
    have h := gameOver_paths self (.fulfilled response)
    cases hok : response.ok with
    | false =>
      simp only [hok, if_true] at h
      rw [h]
      exact ⟨by simp [shownBeforeSettled], by simp,
        fun _ => ⟨[_, .fetchSettled, _], by simp, rfl⟩⟩
    | true =>
      simp only [hok, Bool.true_eq_false, if_false] at h
      rw [h]
      exact ⟨by simp [shownBeforeSettled], by simp,
        fun _ => ⟨[_, .fetchSettled], by simp, rfl⟩⟩

/-- Witness of the amended C10: a request that never settles, and one that is answered. -/
theorem gameOver_screen_after_settle_witness :
    ClientEvent.showGameOverScreen ∉
        (gameOver ⟨.bool false, .str "playing", .num 150, .str "u1"⟩ .pending).2.trace ∧
      ∃ pre, ClientEvent.fetchSettled ∈ pre ∧
        (gameOver ⟨.bool false, .str "playing", .num 150, .str "u1"⟩
          (.fulfilled ⟨false⟩)).2.trace = pre ++ [.showGameOverScreen] :=
  ⟨(gameOver_screen_after_settle ⟨.bool false, .str "playing", .num 150, .str "u1"⟩
      .pending).2.1 rfl,
    (gameOver_screen_after_settle ⟨.bool false, .str "playing", .num 150, .str "u1"⟩
      (.fulfilled ⟨false⟩)).2.2 (by decide)⟩

end Nesupani
